import Mathlib

/-!
# Verification of the OKX Exchange Connector configuration and orchestration code

Shallow embedding of `src/src/ConfigManager.cpp`, `src/include/ConfigManager.h`
and `src/src/main.cpp`.  JSON values are modelled by an inductive type mirroring
nlohmann::json's value model; the `ConfigManager` member functions become pure
Lean functions over that type (exceptions become `Except`, the mutable
`m_config` member becomes explicit state passing); `main`'s control flow
becomes a trace-producing function over an environment that records the
file-system outcome and the success of each `std::thread` spawn.
-/

namespace OKXConn

/-- JSON values, mirroring nlohmann::json's value model
(null, boolean, number, string, array, object). -/
inductive Json where
  | null
  | bool (b : Bool)
  | num (n : Int)
  | str (s : String)
  | arr (elems : List Json)
  | obj (fields : List (String × Json))

/-- Key lookup in an object's field list (nlohmann objects have unique keys;
lookup returns the value bound to the key). -/
def lookupField : List (String × Json) → String → Option Json
  | [], _ => none
  | (k, v) :: rest, key => if k = key then some v else lookupField rest key

/-- `j[key]` / `j.at(key)` resolution: `some` value iff `j` is an object
containing `key`. -/
def Json.find (j : Json) (key : String) : Option Json :=
  match j with
  | .obj fields => lookupField fields key
  | _ => none

/-- nlohmann `contains(key)`: true iff the value is an object with the key. -/
def Json.containsKey (j : Json) (key : String) : Bool :=
  (j.find key).isSome

/-- nlohmann `empty()`: true for `null` and for objects/arrays with no
elements; false for primitives (which have size 1). -/
def Json.isEmptyJson : Json → Bool
  | .null => true
  | .obj fields => fields.isEmpty
  | .arr elems => elems.isEmpty
  | _ => false

/-- nlohmann `is_string()`. -/
def Json.isStr : Json → Bool
  | .str _ => true
  | _ => false

/-- nlohmann `get<std::string>()` after an `is_string()` check has passed
(the non-string branches are unreachable at every use site). -/
def Json.getStrD : Json → String
  | .str s => s
  | _ => ""

/-- ConfigManager::OKXConfig (src/include/ConfigManager.h). -/
structure OKXConfig where
  url_pub : String
  url_private : String
  API_key : String
  API_secret : String
  API_passphrase : String
deriving DecidableEq

/-- The ConfigManager object state: `m_mode`, `m_configPath`, `m_config`
(the `nlohmann::json` member, default-constructed to null). -/
structure CMState where
  m_mode : String
  m_configPath : String
  m_config : Json

/-- ConfigManager::ConfigManager: validates the mode only ("demo"/"prod");
the configPath argument is stored unchecked. -/
def mkConfigManager (mode configPath : String) : Except String CMState :=
  if mode ≠ "demo" ∧ mode ≠ "prod" then
    .error ("Invalid mode: " ++ mode ++ ". Must be 'demo' or 'prod'")
  else
    .ok ⟨mode, configPath, .null⟩

/-- std::string::back(): the last character; it has no defined result on the
empty string (undefined behaviour in C++), hence `Option`. -/
def strBack : List Char → Option Char
  | [] => none
  | [c] => some c
  | _ :: c :: rest => strBack (c :: rest)

/-- ConfigManager::getConfigFilePath: `m_mode + ".json"` appended to
`m_configPath`, inserting a `'/'` unless the path already ends in one.
`none` models the undefined read `m_configPath.back()` on an empty path. -/
def getConfigFilePath (mode configPath : String) : Option String :=
  let filename := mode ++ ".json"
  match strBack configPath.data with
  | none => none
  | some c => if c = '/' then some (configPath ++ filename)
              else some (configPath ++ "/" ++ filename)

/-- The resolved config-file name of a `CMState` (defined whenever
`m_configPath` is non-empty, which the constructor's default `"config/"`
guarantees at every call site in the program). -/
def cfgFilePath (st : CMState) : String :=
  (getConfigFilePath st.m_mode st.m_configPath).getD ""

/-- The five required fields of the OKXDataSrc section, in the order the
validation loop checks them. -/
def requiredFields : List String :=
  ["url_pub", "url_private", "API_key", "API_secret", "API_passphrase"]

/-- One iteration of the validation loop in
ConfigManager::validateOKXConfig: `some` diagnostic if the field is missing,
not a string, or empty; `none` if the field passes. -/
def fieldError (okxSection : Json) (field : String) : Option String :=
  match okxSection.find field with
  | none => some ("ConfigManager: Missing required field in OKXDataSrc: " ++ field)
  | some (.str s) =>
      if s = "" then
        some ("ConfigManager: Empty value for required field in OKXDataSrc: " ++ field)
      else none
  | some _ => some ("ConfigManager: Field must be string in OKXDataSrc: " ++ field)

/-- The validation loop with its early `return false`: the first field
diagnostic, if any field fails. -/
def firstFieldError (okxSection : Json) : List String → Option String
  | [] => none
  | f :: rest =>
    match fieldError okxSection f with
    | some d => some d
    | none => firstFieldError okxSection rest

/-- ConfigManager::validateOKXConfig.  Returns the boolean result together
with the diagnostic line written to std::cerr (at most one, since the
function returns at the first violation). -/
def validateOKXConfig (okxSection : Json) : Bool × List String :=
  match firstFieldError okxSection requiredFields with
  | some d => (false, [d])
  | none =>
    let url_pub := (okxSection.find "url_pub").getD .null |>.getStrD
    let url_private := (okxSection.find "url_private").getD .null |>.getStrD
    if url_pub.take 6 != "wss://" && url_pub.take 5 != "ws://" then
      (false, ["ConfigManager: Invalid public URL format: " ++ url_pub])
    else if url_private.take 6 != "wss://" && url_private.take 5 != "ws://" then
      (false, ["ConfigManager: Invalid private URL format: " ++ url_private])
    else
      (true, [])

/-- ConfigManager::validateConfig. -/
def validateConfig (cfg : Json) : Bool × List String :=
  if cfg.isEmptyJson then (false, [])
  else
    match cfg.find "OKXDataSrc" with
    | none => (false, ["ConfigManager: Missing OKXDataSrc section"])
    | some okxSection => validateOKXConfig okxSection

/-- ConfigManager::isLoaded: `!m_config.empty()`. -/
def isLoaded (cfg : Json) : Bool := !cfg.isEmptyJson

/-- `okxSection.at(field).get<std::string>()`: the string value, or the
nlohmann exception (wrapped at the call site into the runtime_error text). -/
def atStr (okxSection : Json) (field : String) : Except String String :=
  match okxSection.find field with
  | some (.str s) => .ok s
  | some _ => .error ("Failed to parse OKX configuration: type_error at " ++ field)
  | none => .error ("Failed to parse OKX configuration: out_of_range at " ++ field)

/-- ConfigManager::getOKXConfig, over the current `m_config`. -/
def getOKXConfig (cfg : Json) : Except String OKXConfig :=
  if !isLoaded cfg then
    .error "Configuration not loaded. Call loadConfig() first."
  else if !cfg.containsKey "OKXDataSrc" then
    .error "OKXDataSrc configuration not found"
  else
    let okxSection := (cfg.find "OKXDataSrc").getD .null
    do
      let url_pub ← atStr okxSection "url_pub"
      let url_private ← atStr okxSection "url_private"
      let API_key ← atStr okxSection "API_key"
      let API_secret ← atStr okxSection "API_secret"
      let API_passphrase ← atStr okxSection "API_passphrase"
      return ⟨url_pub, url_private, API_key, API_secret, API_passphrase⟩

/-- What the file system yields for the resolved configuration file:
missing, unopenable, unparseable (with the parser's message), or parsed
JSON content. -/
inductive FileResult where
  | missing
  | unopenable
  | parseError (msg : String)
  | parsed (j : Json)

/-- ConfigManager::loadConfig.  Returns the thrown `runtime_error` message
(or unit on success) together with the post-call object state: note that
`file >> m_config` assigns `m_config` *before* validation runs, so a
validation failure leaves the parsed content behind. -/
def loadConfig (st : CMState) (file : FileResult) : Except String Unit × CMState :=
  match file with
  | .missing =>
      (.error ("Configuration file not found: " ++ cfgFilePath st), st)
  | .unopenable =>
      (.error ("Failed to open configuration file: " ++ cfgFilePath st), st)
  | .parseError msg =>
      (.error ("Failed to parse JSON configuration: " ++ msg), st)
  | .parsed j =>
      let st' := { st with m_config := j }
      if (validateConfig j).1 then (.ok (), st')
      else (.error ("Invalid configuration structure in file: " ++ cfgFilePath st), st')

/-! ## The orchestrator: `main` (src/src/main.cpp)

`main` is a straight-line function with one try/catch; we embed it as a
function from an environment (the file-system outcome for the configuration
file and the success of each of the four possible `std::thread` constructor
calls) to a trace of its observable actions and a process outcome.  A failed
`std::thread` constructor throws `std::system_error`; inside the try block
that exception is caught by the `catch (const std::exception&)` handler
(entering the fallback), except that if the webSocket thread was already
running, stack unwinding destroys a joinable `std::thread`, which calls
`std::terminate`.  In the fallback block there is no handler, so a spawn
failure propagates (or destroys a joinable thread) and terminates the
process abnormally. -/

/-- Observable actions of `main`, in program order. -/
inductive Event where
  | initState                       -- flag(false), both counters(0), mutex, Calculation(1000)
  | useUri (uri : String)           -- WebSocketClass webSocket(uri, ...)
  | startWorker (name : String)     -- std::thread construction succeeds
  | sleepWindow (seconds : Nat)     -- std::this_thread::sleep_for
  | setFlag (b : Bool)              -- flag.store(b)
  | joinWorker (name : String)      -- thread.join()
  | reportWsRequests                -- "Total WebSocket requests made: ..."
  | reportHeavyTasks                -- "Total calculations completed: ..."
  | reportConfigInfo                -- mode / URLs / key-prefix printout
  | reportConfigError (msg : String) -- "Configuration Error: " << e.what()
  | reportFallback                  -- "Falling back to hardcoded configuration..."
deriving DecidableEq

/-- How the process ends: normal return from `main`, or abnormal
termination via `std::terminate` (an unsuccessful, non-zero exit). -/
inductive Outcome where
  | exit (code : Nat)
  | terminated
deriving DecidableEq

structure RunResult where
  trace : List Event
  outcome : Outcome
deriving DecidableEq

/-- The environment `main` runs against: the configuration file's state and
whether each `std::thread` constructor succeeds (primary branch and
fallback branch). -/
structure Env where
  file : FileResult
  spawnWsOk : Bool
  spawnCalcOk : Bool
  fbSpawnWsOk : Bool
  fbSpawnCalcOk : Bool

/-- The hardcoded fallback URI in main.cpp. -/
def defaultUri : String := "wss://ws.okx.com:8443/ws/v5/public"

/-- The `std::system_error` message of a failed thread spawn (modelled
text; printed by the catch handler as a "Configuration Error"). -/
def spawnErrMsg : String := "thread constructor failed"

/-- The common pipeline of both branches of main: initialise shared state,
construct the WebSocket client with `uri`, start both workers, sleep the
60-second observation window, set the cancellation flag, join both
workers, report both counters. -/
def pipelineTrace (uri : String) : List Event :=
  [.initState, .useUri uri, .startWorker "webSocket", .startWorker "calculation",
   .sleepWindow 60, .setFlag true, .joinWorker "calculation", .joinWorker "webSocket",
   .reportWsRequests, .reportHeavyTasks]

/-- The catch-handler (fallback) block of main: the same pipeline on
`defaultUri`; a spawn failure there is not caught (abnormal termination). -/
def fallbackRun (env : Env) : List Event × Outcome :=
  if env.fbSpawnWsOk then
    if env.fbSpawnCalcOk then
      (pipelineTrace defaultUri, .exit 0)
    else
      ([.initState, .useUri defaultUri, .startWorker "webSocket"], .terminated)
  else
    ([.initState, .useUri defaultUri], .terminated)

/-- The configuration phase of main's try block:
`ConfigManager configManager("demo")` (configPath defaulted to "config/"),
`configManager.loadConfig()`, `configManager.getOKXConfig()`. -/
def configPhase (file : FileResult) : Except String OKXConfig :=
  match mkConfigManager "demo" "config/" with
  | .error e => .error e
  | .ok st =>
    match loadConfig st file with
    | (.error e, _) => .error e
    | (.ok _, st') => getOKXConfig st'.m_config

/-- main (src/src/main.cpp): try the configuration-driven pipeline; on any
`std::exception` from the try block, report it as a configuration error and
run the hardcoded fallback pipeline; return 0. -/
def runMain (env : Env) : RunResult :=
  match configPhase env.file with
  | .ok okxConfig =>
    if env.spawnWsOk then
      if env.spawnCalcOk then
        ⟨.reportConfigInfo :: pipelineTrace okxConfig.url_pub, .exit 0⟩
      else
        -- calc spawn throws; unwinding destroys the joinable webSocket
        -- thread → std::terminate before the catch handler is reached
        ⟨[.reportConfigInfo, .initState, .useUri okxConfig.url_pub,
          .startWorker "webSocket"], .terminated⟩
    else
      -- webSocket spawn throws; no thread is joinable, the handler catches
      let (t, o) := fallbackRun env
      ⟨[.reportConfigInfo, .initState, .useUri okxConfig.url_pub,
        .reportConfigError spawnErrMsg, .reportFallback] ++ t, o⟩
  | .error msg =>
    let (t, o) := fallbackRun env
    ⟨[.reportConfigError msg, .reportFallback] ++ t, o⟩

/-! ## The shared order book (spec-modelled)

Modelled from the spec: the Ingestion Component (`WebSocketClass`) and the
Compute Component (`CalculationClass`) are not under src/ — only their
headers are included and their calls appear in main.cpp.  Per spec §3/§4,
the ingestion worker replaces both price ladders of the shared
`OrderBookSnapshot` while holding `bookLock`, and the compute worker copies
the snapshot while holding the same lock; each lock-protected critical
section is therefore one atomic step of the model. -/

/-- An order-book snapshot: the bid and ask price ladders
((price, size) pairs). -/
structure Snapshot where
  bid : List (Int × Int)
  ask : List (Int × Int)
deriving DecidableEq

/-- Global state of the two-worker system: the shared book, the number of
completed writes, and every snapshot the compute worker has observed.
`W n` is the (arbitrary) content committed by the n-th completed write;
`W 0` is the initial book. -/
structure SysState where
  book : Snapshot
  writes : Nat
  observed : List Snapshot
deriving DecidableEq

/-- One atomic (lock-protected) step: the ingestion worker commits write
`writes+1` (replacing both ladders together), or the compute worker copies
the current book. -/
inductive SysStep (W : Nat → Snapshot) : SysState → SysState → Prop
  | write (s : SysState) : SysStep W s ⟨W (s.writes + 1), s.writes + 1, s.observed⟩
  | read (s : SysState) : SysStep W s ⟨s.book, s.writes, s.observed ++ [s.book]⟩

/-- Initial state: the book as first written/initialised, no completed
writes counted, nothing observed. -/
def sysInit (W : Nat → Snapshot) : SysState := ⟨W 0, 0, []⟩

/-- States reachable by interleaving the two workers' critical sections. -/
inductive SysReachable (W : Nat → Snapshot) : SysState → Prop
  | init : SysReachable W (sysInit W)
  | step {s s' : SysState} : SysReachable W s → SysStep W s s' → SysReachable W s'

/-- A concrete write history: the n-th write puts price level n on both
ladders. -/
def demoLadders (n : Nat) : Snapshot := ⟨[((n : Int), 1)], [((n : Int), 2)]⟩

/-! ## Specification-side predicates (from the spec's words, for claim C1) -/

/-- "begins with the prefix `p`": the first `p.length` characters are `p`. -/
def beginsWith (p s : String) : Prop := s.take p.length = p

/-- The field is present in the section, is a string, and is non-empty. -/
def fieldOkSpec (okxSection : Json) (field : String) : Prop :=
  ∃ s, okxSection.find field = some (.str s) ∧ s ≠ ""

/-- The field holds a string beginning with `ws://` or `wss://`. -/
def urlOkSpec (okxSection : Json) (field : String) : Prop :=
  ∃ s, okxSection.find field = some (.str s) ∧
    (beginsWith "ws://" s ∨ beginsWith "wss://" s)

/-- The spec's validity condition: the OKXDataSrc section exists, each of
the five required fields is a present, non-empty string, and both URL
fields begin with a websocket scheme marker. -/
def validSpec (cfg : Json) : Prop :=
  ∃ okxSection, cfg.find "OKXDataSrc" = some okxSection ∧
    (∀ f ∈ requiredFields, fieldOkSpec okxSection f) ∧
    urlOkSpec okxSection "url_pub" ∧ urlOkSpec okxSection "url_private"

/-! ## Concrete configuration values used as inputs -/

/-- A fully valid OKXDataSrc section. -/
def okxGoodSection : Json := .obj
  [("url_pub", .str "wss://ws.okx.com:8443/ws/v5/public"),
   ("url_private", .str "wss://ws.okx.com:8443/ws/v5/private"),
   ("API_key", .str "key-0001"),
   ("API_secret", .str "secret-0001"),
   ("API_passphrase", .str "phrase-0001")]

/-- A configuration that passes validation. -/
def cfgGood : Json := .obj [("OKXDataSrc", okxGoodSection)]

/-- An OKXDataSrc section whose five fields are all present, non-empty
strings but whose public URL has a non-websocket scheme. -/
def okxBadScheme : Json := .obj
  [("url_pub", .str "http://example"),
   ("url_private", .str "wss://ws.okx.com:8443/ws/v5/private"),
   ("API_key", .str "key-0001"),
   ("API_secret", .str "secret-0001"),
   ("API_passphrase", .str "phrase-0001")]

/-- A configuration that parses but fails structural validation on the
public URL's scheme. -/
def cfgBadScheme : Json := .obj [("OKXDataSrc", okxBadScheme)]

/-- An OKXDataSrc section with `API_secret` missing. -/
def okxMissingSecret : Json := .obj
  [("url_pub", .str "wss://ws.okx.com:8443/ws/v5/public"),
   ("url_private", .str "wss://ws.okx.com:8443/ws/v5/private"),
   ("API_key", .str "key-0001"),
   ("API_passphrase", .str "phrase-0001")]

/-- A configuration missing the `API_secret` field. -/
def cfgMissingSecret : Json := .obj [("OKXDataSrc", okxMissingSecret)]

/-- A freshly constructed ConfigManager("demo") (configPath defaulted). -/
def st0 : CMState := ⟨"demo", "config/", .null⟩

/-! ## Helper lemmas -/

theorem find_of_isEmptyJson {cfg : Json} (h : cfg.isEmptyJson = true) (k : String) :
    cfg.find k = none := by
  cases cfg with
  | obj fields =>
      cases fields with
      | nil => rfl
      | cons a rest => simp [Json.isEmptyJson] at h
  | _ => rfl

theorem isEmptyJson_eq_false_of_find {cfg : Json} {k : String} {v : Json}
    (h : cfg.find k = some v) : cfg.isEmptyJson = false := by
  cases cfg with
  | obj fields =>
      cases fields with
      | nil => simp [Json.find, lookupField] at h
      | cons a rest => simp [Json.isEmptyJson]
  | _ => simp [Json.find] at h

theorem fieldError_eq_none_iff (okxSection : Json) (f : String) :
    fieldError okxSection f = none ↔ fieldOkSpec okxSection f := by
  unfold fieldOkSpec
  cases h : okxSection.find f with
  | none => simp [fieldError, h]
  | some v =>
      cases v with
      | str s =>
          by_cases hs : s = "" <;> simp [fieldError, h, hs]
      | _ => simp [fieldError, h]

theorem firstFieldError_eq_none_iff (okxSection : Json) (l : List String) :
    firstFieldError okxSection l = none ↔ ∀ f ∈ l, fieldError okxSection f = none := by
  induction l with
  | nil => simp [firstFieldError]
  | cons f rest ih =>
      cases h : fieldError okxSection f with
      | some d => simp [firstFieldError, h]
      | none => simp [firstFieldError, h, ih]

theorem firstFieldError_eq_some (okxSection : Json) (l : List String) (d : String)
    (h : firstFieldError okxSection l = some d) :
    ∃ f ∈ l, fieldError okxSection f = some d := by
  induction l with
  | nil => simp [firstFieldError] at h
  | cons f rest ih =>
      cases hf : fieldError okxSection f with
      | some e =>
          rw [firstFieldError, hf] at h
          exact ⟨f, by simp, by rw [hf]; exact h⟩
      | none =>
          rw [firstFieldError, hf] at h
          obtain ⟨g, hg, hge⟩ := ih h
          exact ⟨g, by simp [hg], hge⟩

/-- The code's two-`substr` scheme test fails exactly when the URL begins
with neither websocket scheme marker. -/
theorem wsCheck_eq_false_iff (s : String) :
    ((s.take 6 != "wss://") && (s.take 5 != "ws://")) = false ↔
      (beginsWith "ws://" s ∨ beginsWith "wss://" s) := by
  have h6 : ("wss://" : String).length = 6 := rfl
  have h5 : ("ws://" : String).length = 5 := rfl
  unfold beginsWith
  rw [h5, h6, Bool.and_eq_false_iff, bne_eq_false_iff_eq, bne_eq_false_iff_eq]
  exact or_comm

theorem validateOKXConfig_true_iff (okxSection : Json) :
    (validateOKXConfig okxSection).1 = true ↔
      (∀ f ∈ requiredFields, fieldOkSpec okxSection f) ∧
        urlOkSpec okxSection "url_pub" ∧ urlOkSpec okxSection "url_private" := by
  cases hf : firstFieldError okxSection requiredFields with
  | some d =>
      have hv : validateOKXConfig okxSection = (false, [d]) := by
        unfold validateOKXConfig; rw [hf]
      rw [hv]
      obtain ⟨f, hfl, hfe⟩ := firstFieldError_eq_some okxSection requiredFields d hf
      constructor
      · intro h; simp at h
      · rintro ⟨hall, -⟩
        have := (fieldError_eq_none_iff okxSection f).mpr (hall f hfl)
        rw [this] at hfe; simp at hfe
  | none =>
      have hall : ∀ f ∈ requiredFields, fieldError okxSection f = none :=
        (firstFieldError_eq_none_iff okxSection requiredFields).mp hf
      have hallOk : ∀ f ∈ requiredFields, fieldOkSpec okxSection f := fun f hfl =>
        (fieldError_eq_none_iff okxSection f).mp (hall f hfl)
      obtain ⟨pu, hpu, -⟩ := hallOk "url_pub" (by simp [requiredFields])
      obtain ⟨pv, hpv, -⟩ := hallOk "url_private" (by simp [requiredFields])
      have hv : validateOKXConfig okxSection =
          (if (pu.take 6 != "wss://") && (pu.take 5 != "ws://") then
            (false, ["ConfigManager: Invalid public URL format: " ++ pu])
          else if (pv.take 6 != "wss://") && (pv.take 5 != "ws://") then
            (false, ["ConfigManager: Invalid private URL format: " ++ pv])
          else (true, [])) := by
        unfold validateOKXConfig; rw [hf, hpu, hpv]; rfl
      rw [hv]
      cases hb1 : ((pu.take 6 != "wss://") && (pu.take 5 != "ws://")) with
      | true =>
          rw [if_pos rfl]
          constructor
          · intro h; simp at h
          · rintro ⟨-, ⟨u, hu, hws⟩, -⟩
            rw [hpu] at hu
            obtain rfl : pu = u := by simpa using hu
            have := (wsCheck_eq_false_iff pu).mpr hws
            rw [hb1] at this; simp at this
      | false =>
          rw [if_neg Bool.false_ne_true]
          cases hb2 : ((pv.take 6 != "wss://") && (pv.take 5 != "ws://")) with
          | true =>
              rw [if_pos rfl]
              constructor
              · intro h; simp at h
              · rintro ⟨-, -, ⟨u, hu, hws⟩⟩
                rw [hpv] at hu
                obtain rfl : pv = u := by simpa using hu
                have := (wsCheck_eq_false_iff pv).mpr hws
                rw [hb2] at this; simp at this
          | false =>
              rw [if_neg Bool.false_ne_true]
              constructor
              · intro _
                refine ⟨hallOk, ⟨pu, hpu, ?_⟩, ⟨pv, hpv, ?_⟩⟩
                · exact (wsCheck_eq_false_iff pu).mp hb1
                · exact (wsCheck_eq_false_iff pv).mp hb2
              · intro _; rfl

theorem strBack_cons (a : Char) (l : List Char) : ∃ c, strBack (a :: l) = some c := by
  induction l generalizing a with
  | nil => exact ⟨a, rfl⟩
  | cons b rest ih => obtain ⟨c, hc⟩ := ih b; exact ⟨c, hc⟩

theorem strBack_eq_none_iff (l : List Char) : strBack l = none ↔ l = [] := by
  cases l with
  | nil => simp [strBack]
  | cons a rest =>
      obtain ⟨c, hc⟩ := strBack_cons a rest
      simp [hc]

/-- Evaluation of `getConfigFilePath` once the path's last character is
known. -/
theorem getConfigFilePath_eq (mode cp : String) (c : Char)
    (h : strBack cp.data = some c) :
    getConfigFilePath mode cp =
      if c = '/' then some (cp ++ (mode ++ ".json"))
      else some (cp ++ "/" ++ (mode ++ ".json")) := by
  unfold getConfigFilePath
  rw [h]

theorem strBack_concat (l : List Char) (c : Char) : strBack (l ++ [c]) = some c := by
  induction l with
  | nil => rfl
  | cons a rest ih =>
      cases rest with
      | nil => rfl
      | cons b rest2 => exact ih

/-! ## Claim theorems -/

/-- C1: `validateConfig` returns true if and only if the OKXDataSrc section
exists and each of the five fields `url_pub`, `url_private`, `API_key`,
`API_secret`, `API_passphrase` is present, a string, and non-empty, and both
URL fields begin with `ws://` or `wss://`; in every other case (missing
section, missing field, non-string field, empty field, wrong URL scheme, or
empty configuration) it returns false. -/
theorem claim_C1_validateConfig_iff (cfg : Json) :
    (validateConfig cfg).1 = true ↔ validSpec cfg := by
  unfold validateConfig validSpec
  cases he : cfg.isEmptyJson with
  | true =>
      have hnone := find_of_isEmptyJson he "OKXDataSrc"
      simp [hnone]
  | false =>
      cases hk : cfg.find "OKXDataSrc" with
      | none => simp [hk]
      | some okxSection => simp [hk, validateOKXConfig_true_iff]

/-- C2: for a loaded configuration whose OKXDataSrc section holds the five
fields as strings, `getOKXConfig` returns them unmodified, and `isLoaded`
is true. -/
theorem claim_C2_getOKXConfig_unmodified (cfg okxSection : Json)
    (u1 u2 k sec p : String)
    (hsec : cfg.find "OKXDataSrc" = some okxSection)
    (h1 : okxSection.find "url_pub" = some (.str u1))
    (h2 : okxSection.find "url_private" = some (.str u2))
    (h3 : okxSection.find "API_key" = some (.str k))
    (h4 : okxSection.find "API_secret" = some (.str sec))
    (h5 : okxSection.find "API_passphrase" = some (.str p)) :
    getOKXConfig cfg = .ok ⟨u1, u2, k, sec, p⟩ ∧ isLoaded cfg = true := by
  have hne : cfg.isEmptyJson = false := isEmptyJson_eq_false_of_find hsec
  have hload : isLoaded cfg = true := by simp [isLoaded, hne]
  refine ⟨?_, hload⟩
  have hgd : (cfg.find "OKXDataSrc").getD .null = okxSection := by rw [hsec]; rfl
  simp only [getOKXConfig, hload, Json.containsKey, hsec, Option.isSome_some,
    Bool.not_true, Bool.false_eq_true, if_false, Option.getD_some, hgd, atStr,
    h1, h2, h3, h4, h5]
  rfl

/-- Witness for C2 on a concrete valid configuration. -/
theorem claim_C2_witness :
    getOKXConfig cfgGood = .ok ⟨"wss://ws.okx.com:8443/ws/v5/public",
      "wss://ws.okx.com:8443/ws/v5/private", "key-0001", "secret-0001",
      "phrase-0001"⟩ ∧ isLoaded cfgGood = true :=
  claim_C2_getOKXConfig_unmodified cfgGood okxGoodSection
    "wss://ws.okx.com:8443/ws/v5/public" "wss://ws.okx.com:8443/ws/v5/private"
    "key-0001" "secret-0001" "phrase-0001" rfl rfl rfl rfl rfl rfl

/-- C5: for any non-empty directory path `P` (not already ending in a
separator) and mode `m`, both `P ++ "/"` and `P` resolve to the same file,
namely `P` joined to `<m>.json` with exactly one separator. -/
theorem claim_C5_trailing_separator (mode P : String)
    (hne : P ≠ "") (hsl : strBack P.data ≠ some '/') :
    getConfigFilePath mode (P ++ "/") = getConfigFilePath mode P ∧
    getConfigFilePath mode P = some (P ++ "/" ++ (mode ++ ".json")) := by
  have hdata : (P ++ "/").data = P.data ++ ['/'] := by
    rw [String.data_append]
  have hback : strBack (P ++ "/").data = some '/' := by
    rw [hdata]; exact strBack_concat P.data '/'
  obtain ⟨c, hc⟩ : ∃ c, strBack P.data = some c := by
    obtain ⟨d⟩ := P
    cases d with
    | nil => exact absurd rfl hne
    | cons a rest => exact strBack_cons a rest
  have hcne : ¬(c = '/') := fun h => hsl (h ▸ hc)
  have e1 : getConfigFilePath mode (P ++ "/") = some ((P ++ "/") ++ (mode ++ ".json")) := by
    rw [getConfigFilePath_eq mode (P ++ "/") '/' hback, if_pos rfl]
  have e2 : getConfigFilePath mode P = some (P ++ "/" ++ (mode ++ ".json")) := by
    rw [getConfigFilePath_eq mode P c hc, if_neg hcne]
  exact ⟨e1.trans e2.symm, e2⟩

/-- Witness for C5 at `P = "config"`, `m = "demo"`. -/
theorem claim_C5_witness :
    getConfigFilePath "demo" ("config" ++ "/") = getConfigFilePath "demo" "config" ∧
    getConfigFilePath "demo" "config" = some ("config" ++ "/" ++ ("demo" ++ ".json")) :=
  claim_C5_trailing_separator "demo" "config" (by decide) (by decide)

/-- C9: the constructor accepts any configPath (only the mode is checked),
including the empty string, while `getConfigFilePath`'s unconditional read
of the path's last character has a defined result exactly when the path is
non-empty: on the empty path the operation is undefined. -/
theorem claim_C9_empty_configPath (p : String) :
    mkConfigManager "demo" p = .ok ⟨"demo", p, .null⟩ ∧
    (getConfigFilePath "demo" p = none ↔ p = "") := by
  constructor
  · unfold mkConfigManager
    rw [if_neg (fun h => h.1 rfl)]
  · constructor
    · intro h
      have hnone : strBack p.data = none := by
        by_contra hn
        obtain ⟨c, hc⟩ := Option.ne_none_iff_exists'.mp hn
        unfold getConfigFilePath at h
        rw [hc] at h
        by_cases hcs : c = '/' <;> simp [hcs] at h
      have hd : p.data = [] := (strBack_eq_none_iff p.data).mp hnone
      obtain ⟨d⟩ := p
      simp only at hd
      rw [hd]
    · intro h; subst h; rfl

/-- Every diagnostic produced by the field-checking loop embeds the name of
the offending field (the messages all end in `++ field`). -/
theorem fieldError_names_field (okxSection : Json) (f d : String)
    (h : fieldError okxSection f = some d) : f.data <:+: d.data := by
  have key : ∀ (pre : String), f.data <:+: (pre ++ f).data := by
    intro pre
    rw [String.data_append]
    exact (List.suffix_append pre.data f.data).isInfix
  unfold fieldError at h
  cases hf : okxSection.find f <;> rw [hf] at h
  case none =>
    have hd := Option.some.inj h
    subst hd
    exact key _
  case some v =>
    cases v
    case str s =>
      by_cases hs : s = ""
      · subst hs
        have hd := Option.some.inj h
        subst hd
        exact key _
      · have h' : (if s = "" then
            some ("ConfigManager: Empty value for required field in OKXDataSrc: " ++ f)
          else none) = some d := h
        rw [if_neg hs] at h'
        exact absurd h' (by simp)
    all_goals
      have hd := Option.some.inj h
      subst hd
      exact key _

/-- C4 counterexample: with `API_secret` missing, loadConfig's error names
only the configuration file — the offending field's name does not occur in
the message signalled to the caller (it occurs only in the std::cerr
diagnostic). -/
theorem claim_C4_counterexample :
    (loadConfig st0 (.parsed cfgMissingSecret)).1 =
      .error "Invalid configuration structure in file: config/demo.json" ∧
    fieldError okxMissingSecret "API_secret" =
      some "ConfigManager: Missing required field in OKXDataSrc: API_secret" ∧
    ¬ ("API_secret".data <:+:
        ("Invalid configuration structure in file: config/demo.json").data) := by
  refine ⟨rfl, rfl, by decide⟩

/-- C4 (amended): loadConfig signals an error exactly when the file is
missing, cannot be opened, fails JSON parsing, or fails structural
validation; for a field-level violation the offending field is named in
the std::cerr diagnostic, while the error signalled to the caller names
the configuration file, not the field. -/
theorem claim_C4_loadConfig_errors (st : CMState) (file : FileResult) :
    ((loadConfig st file).1 = .ok () ↔
      ∃ j, file = .parsed j ∧ (validateConfig j).1 = true)
    ∧ (∀ j, file = .parsed j → (validateConfig j).1 = false →
        (loadConfig st file).1 =
          .error ("Invalid configuration structure in file: " ++ cfgFilePath st))
    ∧ (∀ okxSection d, firstFieldError okxSection requiredFields = some d →
        (validateOKXConfig okxSection).2 = [d] ∧
          ∃ f ∈ requiredFields, f.data <:+: d.data) := by
  refine ⟨?_, ?_, ?_⟩
  · cases file with
    | parsed j =>
        cases hv : (validateConfig j).1 with
        | true => simp [loadConfig, hv]
        | false => simp [loadConfig, hv]
    | missing => simp [loadConfig]
    | unopenable => simp [loadConfig]
    | parseError msg => simp [loadConfig]
  · intro j hj hv
    subst hj
    simp [loadConfig, hv]
  · intro okxSection d hd
    have hval : validateOKXConfig okxSection = (false, [d]) := by
      unfold validateOKXConfig; rw [hd]
    obtain ⟨f, hfl, hfe⟩ := firstFieldError_eq_some okxSection requiredFields d hd
    exact ⟨by rw [hval], f, hfl, fieldError_names_field okxSection f d hfe⟩

/-- Witness for the amended C4: the validation-failure branch at a concrete
invalid configuration. -/
theorem claim_C4_witness :
    (loadConfig st0 (.parsed cfgMissingSecret)).1 =
      .error ("Invalid configuration structure in file: " ++ cfgFilePath st0) :=
  (claim_C4_loadConfig_errors st0 (.parsed cfgMissingSecret)).2.1
    cfgMissingSecret rfl (by decide)

/-- C10: loadConfig is not atomic on failure — for a configuration that
parses but fails validation (wrong scheme on `url_pub`), loadConfig throws
while `m_config` keeps the parsed content, so `isLoaded()` is true and
`getOKXConfig` afterwards returns the invalid configuration's fields. -/
theorem claim_C10_loadConfig_not_atomic :
    (loadConfig st0 (.parsed cfgBadScheme)).1 =
      .error "Invalid configuration structure in file: config/demo.json" ∧
    (validateConfig cfgBadScheme).1 = false ∧
    isLoaded (loadConfig st0 (.parsed cfgBadScheme)).2.m_config = true ∧
    getOKXConfig (loadConfig st0 (.parsed cfgBadScheme)).2.m_config =
      .ok ⟨"http://example", "wss://ws.okx.com:8443/ws/v5/private", "key-0001",
        "secret-0001", "phrase-0001"⟩ :=
  ⟨rfl, rfl, rfl, rfl⟩

/-- C3: on any configuration-phase failure, main catches the exception,
reports it, substitutes the built-in default URI, and still runs the full
pipeline (both workers started, 60-second window, flag set, both counters
reported), exiting successfully. -/
theorem claim_C3_config_failure_fallback (env : Env) (msg : String)
    (hc : configPhase env.file = .error msg)
    (h1 : env.fbSpawnWsOk = true) (h2 : env.fbSpawnCalcOk = true) :
    runMain env =
      ⟨[.reportConfigError msg, .reportFallback] ++ pipelineTrace defaultUri,
        .exit 0⟩ ∧
    Event.useUri defaultUri ∈ (runMain env).trace ∧
    Event.startWorker "webSocket" ∈ (runMain env).trace ∧
    Event.startWorker "calculation" ∈ (runMain env).trace ∧
    Event.sleepWindow 60 ∈ (runMain env).trace ∧
    Event.reportWsRequests ∈ (runMain env).trace ∧
    Event.reportHeavyTasks ∈ (runMain env).trace := by
  have he : runMain env =
      ⟨[.reportConfigError msg, .reportFallback] ++ pipelineTrace defaultUri,
        .exit 0⟩ := by
    simp [runMain, hc, fallbackRun, h1, h2]
  rw [he]
  refine ⟨rfl, ?_, ?_, ?_, ?_, ?_, ?_⟩ <;> simp [pipelineTrace]

/-- Witness for C3: a wrong-scheme configuration file triggers the
fallback and the pipeline still completes. -/
theorem claim_C3_witness :
    runMain ⟨.parsed cfgBadScheme, true, true, true, true⟩ =
      ⟨[.reportConfigError "Invalid configuration structure in file: config/demo.json",
        .reportFallback] ++ pipelineTrace defaultUri, .exit 0⟩ ∧
    Event.useUri defaultUri ∈ (runMain ⟨.parsed cfgBadScheme, true, true, true, true⟩).trace ∧
    Event.startWorker "webSocket" ∈ (runMain ⟨.parsed cfgBadScheme, true, true, true, true⟩).trace ∧
    Event.startWorker "calculation" ∈ (runMain ⟨.parsed cfgBadScheme, true, true, true, true⟩).trace ∧
    Event.sleepWindow 60 ∈ (runMain ⟨.parsed cfgBadScheme, true, true, true, true⟩).trace ∧
    Event.reportWsRequests ∈ (runMain ⟨.parsed cfgBadScheme, true, true, true, true⟩).trace ∧
    Event.reportHeavyTasks ∈ (runMain ⟨.parsed cfgBadScheme, true, true, true, true⟩).trace :=
  claim_C3_config_failure_fallback ⟨.parsed cfgBadScheme, true, true, true, true⟩
    "Invalid configuration structure in file: config/demo.json" rfl rfl rfl

/-- C6: in every run that completes normally, the trace is some prefix of
configuration/reporting events followed by the pipeline: shared state is
initialised (flag false, counters zero) before the two workers start, the
flag is set to true exactly once — after the 60-second window — and never
reset, and only after it is set are the workers joined and the counters
reported. -/
theorem claim_C6_flag_lifecycle (env : Env)
    (h : (runMain env).outcome = .exit 0) :
    (∃ pre uri, (runMain env).trace = pre ++ pipelineTrace uri ∧
      ∀ e ∈ pre, (∀ b, e ≠ .setFlag b) ∧ (∀ n, e ≠ .startWorker n) ∧
        (∀ n, e ≠ .joinWorker n) ∧ (∀ n, e ≠ .sleepWindow n) ∧
        e ≠ .reportWsRequests ∧ e ≠ .reportHeavyTasks) ∧
    (runMain env).trace.count (.setFlag true) = 1 ∧
    Event.setFlag false ∉ (runMain env).trace := by
  cases hcp : configPhase env.file with
  | ok okxConfig =>
      cases hs1 : env.spawnWsOk with
      | true =>
          cases hs2 : env.spawnCalcOk with
          | true =>
              have he : runMain env =
                  ⟨.reportConfigInfo :: pipelineTrace okxConfig.url_pub, .exit 0⟩ := by
                simp [runMain, hcp, hs1, hs2]
              rw [he]
              refine ⟨⟨[.reportConfigInfo], okxConfig.url_pub, rfl, ?_⟩, ?_, ?_⟩
              · intro e he'
                simp at he'
                subst he'
                refine ⟨?_, ?_, ?_, ?_, ?_, ?_⟩ <;> simp
              · simp [pipelineTrace, List.count_cons, List.count_nil]
              · simp [pipelineTrace]
          | false =>
              have he : runMain env =
                  ⟨[.reportConfigInfo, .initState, .useUri okxConfig.url_pub,
                    .startWorker "webSocket"], .terminated⟩ := by
                simp [runMain, hcp, hs1, hs2]
              rw [he] at h
              simp at h
      | false =>
          cases hf1 : env.fbSpawnWsOk with
          | true =>
              cases hf2 : env.fbSpawnCalcOk with
              | true =>
                  have he : runMain env =
                      ⟨[.reportConfigInfo, .initState, .useUri okxConfig.url_pub,
                        .reportConfigError spawnErrMsg, .reportFallback] ++
                        pipelineTrace defaultUri, .exit 0⟩ := by
                    simp [runMain, hcp, hs1, fallbackRun, hf1, hf2]
                  rw [he]
                  refine ⟨⟨[.reportConfigInfo, .initState, .useUri okxConfig.url_pub,
                    .reportConfigError spawnErrMsg, .reportFallback], defaultUri,
                    rfl, ?_⟩, ?_, ?_⟩
                  · intro e he'
                    simp at he'
                    rcases he' with rfl | rfl | rfl | rfl | rfl <;>
                      refine ⟨?_, ?_, ?_, ?_, ?_, ?_⟩ <;> simp
                  · simp [pipelineTrace, List.count_cons, List.count_nil]
                  · simp [pipelineTrace]
              | false =>
                  have he : (runMain env).outcome = .terminated := by
                    simp [runMain, hcp, hs1, fallbackRun, hf1, hf2]
                  rw [he] at h
                  simp at h
          | false =>
              have he : (runMain env).outcome = .terminated := by
                simp [runMain, hcp, hs1, fallbackRun, hf1]
              rw [he] at h
              simp at h
  | error msg =>
      cases hf1 : env.fbSpawnWsOk with
      | true =>
          cases hf2 : env.fbSpawnCalcOk with
          | true =>
              have he : runMain env =
                  ⟨[.reportConfigError msg, .reportFallback] ++
                    pipelineTrace defaultUri, .exit 0⟩ := by
                simp [runMain, hcp, fallbackRun, hf1, hf2]
              rw [he]
              refine ⟨⟨[.reportConfigError msg, .reportFallback], defaultUri,
                rfl, ?_⟩, ?_, ?_⟩
              · intro e he'
                simp at he'
                rcases he' with rfl | rfl <;>
                  refine ⟨?_, ?_, ?_, ?_, ?_, ?_⟩ <;> simp
              · simp [pipelineTrace, List.count_cons, List.count_nil]
              · simp [pipelineTrace]
          | false =>
              have he : (runMain env).outcome = .terminated := by
                simp [runMain, hcp, fallbackRun, hf1, hf2]
              rw [he] at h
              simp at h
      | false =>
          have he : (runMain env).outcome = .terminated := by
            simp [runMain, hcp, fallbackRun, hf1]
          rw [he] at h
          simp at h

/-- Witness for C6 at a fully successful run. -/
theorem claim_C6_witness :
    (∃ pre uri,
      (runMain ⟨.parsed cfgGood, true, true, true, true⟩).trace = pre ++ pipelineTrace uri ∧
      ∀ e ∈ pre, (∀ b, e ≠ .setFlag b) ∧ (∀ n, e ≠ .startWorker n) ∧
        (∀ n, e ≠ .joinWorker n) ∧ (∀ n, e ≠ .sleepWindow n) ∧
        e ≠ .reportWsRequests ∧ e ≠ .reportHeavyTasks) ∧
    (runMain ⟨.parsed cfgGood, true, true, true, true⟩).trace.count (.setFlag true) = 1 ∧
    Event.setFlag false ∉ (runMain ⟨.parsed cfgGood, true, true, true, true⟩).trace :=
  claim_C6_flag_lifecycle ⟨.parsed cfgGood, true, true, true, true⟩ rfl

/-- C7 counterexample: a failure to start the first (webSocket) worker in
the primary branch is caught by the catch handler as if it were a
configuration error — the run proceeds on the fallback pipeline and the
process exits 0, contradicting "worker start failure is fatal with
non-zero exit". -/
theorem claim_C7_counterexample :
    (⟨FileResult.parsed cfgGood, false, true, true, true⟩ : Env).spawnWsOk = false ∧
    (runMain ⟨.parsed cfgGood, false, true, true, true⟩).outcome = .exit 0 ∧
    Event.startWorker "webSocket" ∈
      (runMain ⟨.parsed cfgGood, false, true, true, true⟩).trace :=
  ⟨rfl, by decide, by decide⟩

/-- C7 (amended): a failure to start the second primary worker, or either
fallback worker, terminates the process abnormally (non-zero); a failure
to start the first primary worker is caught by the configuration-error
handler and the run proceeds on the fallback; abnormal termination arises
only from such spawn failures, and every normal exit carries status 0. -/
theorem claim_C7_spawn_failure (env : Env) :
    ((configPhase env.file).isOk = true → env.spawnWsOk = true →
      env.spawnCalcOk = false → (runMain env).outcome = .terminated)
    ∧ ((configPhase env.file).isOk = true → env.spawnWsOk = false →
        (env.fbSpawnWsOk = false ∨ env.fbSpawnCalcOk = false) →
        (runMain env).outcome = .terminated)
    ∧ ((configPhase env.file).isOk = false →
        (env.fbSpawnWsOk = false ∨ env.fbSpawnCalcOk = false) →
        (runMain env).outcome = .terminated)
    ∧ ((runMain env).outcome = .terminated →
        env.spawnCalcOk = false ∨ env.fbSpawnWsOk = false ∨ env.fbSpawnCalcOk = false)
    ∧ (∀ c, (runMain env).outcome = .exit c → c = 0) := by
  cases hcp : configPhase env.file <;>
    cases hs1 : env.spawnWsOk <;>
    cases hs2 : env.spawnCalcOk <;>
    cases hf1 : env.fbSpawnWsOk <;>
    cases hf2 : env.fbSpawnCalcOk <;>
    simp [runMain, hcp, hs1, hs2, hf1, hf2, fallbackRun, Except.isOk, Except.toBool]

/-- Witness for the amended C7: config phase succeeds, the webSocket
worker starts, the calculation worker fails to start — the process
terminates abnormally. -/
theorem claim_C7_witness :
    (runMain ⟨.parsed cfgGood, true, false, true, true⟩).outcome = .terminated :=
  (claim_C7_spawn_failure ⟨.parsed cfgGood, true, false, true, true⟩).1
    (by decide) rfl rfl

/-- C8: every snapshot the compute worker observes equals the book
committed by one single completed write (the initial state counting as
write 0) — never a mismatched pair of ladders; the shared book itself
always equals the latest completed write. -/
theorem claim_C8_consistent_snapshots (W : Nat → Snapshot) (s : SysState)
    (hr : SysReachable W s) :
    s.book = W s.writes ∧ ∀ o ∈ s.observed, ∃ n, n ≤ s.writes ∧ o = W n := by
  induction hr with
  | init => exact ⟨rfl, by simp [sysInit]⟩
  | @step s1 s2 hr' hstep ih =>
      obtain ⟨hbook, hobs⟩ := ih
      cases hstep with
      | write =>
          refine ⟨rfl, ?_⟩
          intro o ho
          obtain ⟨n, hn, rfl⟩ := hobs o ho
          exact ⟨n, Nat.le_succ_of_le hn, rfl⟩
      | read =>
          refine ⟨hbook, ?_⟩
          intro o ho
          rcases List.mem_append.mp ho with hmem | hmem
          · exact hobs o hmem
          · have hob : o = s1.book := by simpa using hmem
            exact ⟨s1.writes, le_rfl, hob.trans hbook⟩

/-- Witness for C8: one write followed by one read; the observed snapshot
is exactly the content of write 1. -/
theorem claim_C8_witness :
    (⟨demoLadders 1, 1, [demoLadders 1]⟩ : SysState).book = demoLadders 1 ∧
    ∀ o ∈ (⟨demoLadders 1, 1, [demoLadders 1]⟩ : SysState).observed,
      ∃ n, n ≤ 1 ∧ o = demoLadders n :=
  claim_C8_consistent_snapshots demoLadders ⟨demoLadders 1, 1, [demoLadders 1]⟩
    (SysReachable.step (SysReachable.step SysReachable.init (SysStep.write _))
      (SysStep.read _))

end OKXConn
